import Mathlib

set_option autoImplicit false

/-!
Shallow embedding of the flyingsphere repository.

The main game lives in src/game.js: a frame-driven update loop over a few
scalar state variables (seed position and velocity, score, spawn timer,
game flags) and a list of obstacle pairs.  Numbers are modelled as exact
rationals.  Per-frame environment inputs that the code reads from outside
(the frame's delta time from the THREE.Clock, the two randFloat draws made
by createObstacle, and the seed's world-space bounding box, which depends
on the seed's rotation angles that this embedding does not track) are
passed explicitly in a `Frame` record.

The second, unused 2D-canvas variant lives in src/unnamed/part_000 and is
embedded separately as `VState` with its own step functions.
-/

namespace FlyingSphere

/-- `aspectRatio` from game.js line 9: `9 / 16`. -/
def aspectRatio : ℚ := 9 / 16

/-- `viewHeight` from game.js line 10: world units for visible height. -/
def viewHeight : ℚ := 16

/-- `viewWidth` from game.js line 11: `viewHeight * aspectRatio`. -/
def viewWidth : ℚ := viewHeight * aspectRatio

/-- `seedRadius` from game.js line 47. -/
def seedRadius : ℚ := 0.5

/-- The seed's fixed x position, set once at game.js line 53:
`seed.position.x = -viewWidth / 3` and never changed afterwards. -/
def seedStartX : ℚ := -viewWidth / 3

/-- `gravity` from game.js line 62. -/
def gravity : ℚ := 0.015

/-- `surgeStrength` from game.js line 63. -/
def surgeStrength : ℚ := 0.45

/-- `seedMinY` from game.js line 64: `viewHeight / -2 + seedRadius`. -/
def seedMinY : ℚ := viewHeight / -2 + seedRadius

/-- `seedMaxY` from game.js line 65: `viewHeight / 2 - seedRadius`. -/
def seedMaxY : ℚ := viewHeight / 2 - seedRadius

/-- `obstacleWidth` from game.js line 73. -/
def obstacleWidth : ℚ := 1.5

/-- `obstacleMinGap` from game.js line 74. -/
def obstacleMinGap : ℚ := 4.0

/-- `obstacleMaxGap` from game.js line 75. -/
def obstacleMaxGap : ℚ := 5.5

/-- `obstacleSpawnX` from game.js line 76: `viewWidth / 2 + obstacleWidth`. -/
def obstacleSpawnX : ℚ := viewWidth / 2 + obstacleWidth

/-- `obstacleDespawnX` from game.js line 77: `viewWidth / -2 - obstacleWidth`. -/
def obstacleDespawnX : ℚ := viewWidth / -2 - obstacleWidth

/-- `obstacleSpeed` from game.js line 78, in world units per second. -/
def obstacleSpeed : ℚ := 3.0

/-- `spawnInterval` from game.js line 80, in seconds. -/
def spawnInterval : ℚ := 2.0

/-- A THREE.Box3: an axis-aligned box given by its min and max corners. -/
structure Box3 where
  minX : ℚ
  minY : ℚ
  minZ : ℚ
  maxX : ℚ
  maxY : ℚ
  maxZ : ℚ
deriving Repr, DecidableEq

/-- THREE.Box3.intersectsBox, called as `a.intersectsBox(b)`: returns false
when the boxes are separated on some axis (strict inequality), true
otherwise — touching boxes count as intersecting. -/
def box3IntersectsBox (a b : Box3) : Bool :=
  if b.maxX < a.minX || b.minX > a.maxX ||
     b.maxY < a.minY || b.minY > a.maxY ||
     b.maxZ < a.minZ || b.minZ > a.maxZ then false else true

/-- Propositional form of `box3IntersectsBox`: overlap on every axis,
with touching allowed. -/
def Box3.Intersects (a b : Box3) : Prop :=
  a.minX ≤ b.maxX ∧ b.minX ≤ a.maxX ∧
  a.minY ≤ b.maxY ∧ b.minY ≤ a.maxY ∧
  a.minZ ≤ b.maxZ ∧ b.minZ ≤ a.maxZ

/-- One obstacle pair as stored in the `obstacles` array (game.js
lines 136-140): the two meshes' positions, the two box geometries'
dimensions, and the scoring flag.  The meshes are only ever translated
(`position.set` at spawn, `position.x -=` while moving), never rotated,
so position plus geometry size determines each world bounding box. -/
structure Obstacle where
  topX : ℚ
  topY : ℚ
  topHeight : ℚ
  bottomX : ℚ
  bottomY : ℚ
  bottomHeight : ℚ
  passed : Bool
deriving Repr, DecidableEq

/-- World-space bounding box of the top mesh: the BoxGeometry bounding box
`[-w/2, w/2] x [-h/2, h/2] x [-w/2, w/2]` translated by the mesh position
`(topX, topY, 0)` (game.js lines 109, 113, 207). -/
def topWorldBox (o : Obstacle) : Box3 :=
  { minX := o.topX - obstacleWidth / 2
    minY := o.topY - o.topHeight / 2
    minZ := -(obstacleWidth / 2)
    maxX := o.topX + obstacleWidth / 2
    maxY := o.topY + o.topHeight / 2
    maxZ := obstacleWidth / 2 }

/-- World-space bounding box of the bottom mesh (game.js lines 110, 114, 212). -/
def bottomWorldBox (o : Obstacle) : Box3 :=
  { minX := o.bottomX - obstacleWidth / 2
    minY := o.bottomY - o.bottomHeight / 2
    minZ := -(obstacleWidth / 2)
    maxX := o.bottomX + obstacleWidth / 2
    maxY := o.bottomY + o.bottomHeight / 2
    maxZ := obstacleWidth / 2 }

/-- `createObstacle` (game.js lines 96-141).  The two `randFloat` draws are
passed in as `gapHeight` and `gapCenterY`.  Returns `none` exactly when the
degenerate-height guard at line 107 fires and the function returns without
pushing an obstacle; otherwise returns the pair pushed onto `obstacles`. -/
def createObstacle (gapHeight gapCenterY : ℚ) : Option Obstacle :=
  let topHeight := viewHeight / 2 - (gapCenterY + gapHeight / 2)
  let bottomHeight := viewHeight / 2 + (gapCenterY - gapHeight / 2)
  if topHeight ≤ 0 ∨ bottomHeight ≤ 0 then none
  else some
    { topX := obstacleSpawnX
      topY := gapCenterY + gapHeight / 2 + topHeight / 2
      topHeight := topHeight
      bottomX := obstacleSpawnX
      bottomY := gapCenterY - gapHeight / 2 - bottomHeight / 2
      bottomHeight := bottomHeight
      passed := false }

/-- The game state: the mutable variables of game.js that the game logic
reads and writes (seed position/velocity, flags, score, spawn timer, and
the obstacles array).  DOM/rendering state is not modelled except for
`seedVisible`, which the logic toggles. -/
structure GameState where
  seedY : ℚ
  seedVelocityY : ℚ
  gameStarted : Bool
  gameOver : Bool
  score : ℕ
  timeSinceLastSpawn : ℚ
  obstacles : List Obstacle
  seedVisible : Bool
deriving Repr, DecidableEq

/-- `resetGame` (game.js lines 143-171): resets seed, score, flags and
timer, and clears the obstacles array. -/
def resetGame (_s : GameState) : GameState :=
  { seedY := 0
    seedVelocityY := 0
    gameStarted := false
    gameOver := false
    score := 0
    timeSinceLastSpawn := spawnInterval
    obstacles := []
    seedVisible := true }

/-- `handleInput` (game.js lines 173-183), run on every mousedown and
touchstart: if the game is over it resets and returns; otherwise it marks
the game started and sets the seed's vertical velocity to `surgeStrength`. -/
def handleInput (s : GameState) : GameState :=
  if s.gameOver then resetGame s
  else { s with gameStarted := true, seedVelocityY := surgeStrength }

/-- The seed physics update of game.js lines 232-233:
`seedVelocityY -= gravity; seed.position.y += seedVelocityY;`. -/
def seedPhysics (y v : ℚ) : ℚ × ℚ :=
  let v1 := v - gravity
  let y1 := y + v1
  (y1, v1)

/-- The boundary checks of game.js lines 239-247, applied to the
post-physics position and velocity.  Returns the new position, the new
velocity, and whether the check set `gameOver`. -/
def boundaryCheck (y v : ℚ) : ℚ × ℚ × Bool :=
  if y < seedMinY then (seedMinY, 0, true)
  else if y > seedMaxY then (seedMaxY, 0, true)
  else (y, v, false)

/-- One iteration of the obstacle loop body (game.js lines 258-294) for a
single obstacle: move it left by `move`, set the `passed` flag and record a
score increment when the seed's x position now exceeds the obstacle's, and
drop the obstacle when it has moved past `obstacleDespawnX`.  Returns the
surviving obstacle (if any) and whether the score was incremented. -/
def processObstacle (move : ℚ) (o : Obstacle) : Option Obstacle × Bool :=
  let o1 := { o with topX := o.topX - move, bottomX := o.bottomX - move }
  let newlyPassed := !o1.passed && decide (seedStartX > o1.topX)
  let o2 := if newlyPassed then { o1 with passed := true } else o1
  if o2.topX < obstacleDespawnX then (none, newlyPassed)
  else (some o2, newlyPassed)

/-- `checkCollisions` (game.js lines 195-218): linear scan over the
obstacles array, returning true as soon as the seed's world box intersects
an obstacle's top or bottom world box, false after the scan.  The seed's
world box (`seed.geometry.boundingBox` transformed by `seed.matrixWorld`,
which includes the seed's rotation) is passed in as `seedBox`. -/
def checkCollisions (seedBox : Box3) (obstacles : List Obstacle) : Bool :=
  obstacles.any fun o =>
    box3IntersectsBox seedBox (topWorldBox o) ||
    box3IntersectsBox seedBox (bottomWorldBox o)

/-- The per-frame environment inputs of one `animate` call: the clock's
delta time, the two `randFloat` draws used if an obstacle spawns this
frame, and the seed's world-space bounding box used by `checkCollisions`
(it depends on the seed's rotation, which this embedding does not track). -/
structure Frame where
  dt : ℚ
  gapHeight : ℚ
  gapCenterY : ℚ
  seedBox : Box3
deriving Repr

/-- The obstacle-spawning step of game.js lines 250-254: advance the spawn
timer by the frame's delta time; when it reaches `spawnInterval`, run
`createObstacle` (appending the pair, if created, to the array) and reset
the timer.  Returns the updated obstacle list and timer. -/
def spawnUpdate (f : Frame) (s : GameState) : List Obstacle × ℚ :=
  let t1 := s.timeSinceLastSpawn + f.dt
  if t1 ≥ spawnInterval then
    (match createObstacle f.gapHeight f.gapCenterY with
     | some o => s.obstacles ++ [o]
     | none => s.obstacles, 0)
  else (s.obstacles, t1)

/-- The running branch of `animate` (game.js lines 229-313): seed physics,
boundary checks, obstacle spawning, the obstacle move/score/cleanup loop,
the collision check (only if the boundary check did not already end the
game), and hiding the seed on game over. -/
def animateRunning (f : Frame) (s : GameState) : GameState :=
  let p := seedPhysics s.seedY s.seedVelocityY
  let b := boundaryCheck p.1 p.2
  let sp := spawnUpdate f s
  let move := obstacleSpeed * f.dt
  let processed := sp.1.map (processObstacle move)
  let obs2 := processed.filterMap Prod.fst
  let inc := processed.countP fun r => r.2
  let over3 := if !b.2.2 && checkCollisions f.seedBox obs2 then true else b.2.2
  { seedY := b.1
    seedVelocityY := b.2.1
    gameStarted := s.gameStarted
    gameOver := over3
    score := s.score + inc
    timeSinceLastSpawn := sp.2
    obstacles := obs2
    seedVisible := if over3 then false else s.seedVisible }

/-- One call of `animate` (game.js lines 224-333), minus rendering and DOM
text updates.  When the game is started and not over, the running branch
executes; when the game is over, the seed is kept hidden (lines 315-322);
otherwise nothing in the modelled state changes. -/
def animateStep (f : Frame) (s : GameState) : GameState :=
  if s.gameStarted && !s.gameOver then animateRunning f s
  else if s.gameOver then { s with seedVisible := false }
  else s

/-- Iterating `animate` over a list of frames. -/
def runFrames : List Frame → GameState → GameState
  | [], s => s
  | f :: fs, s => runFrames fs (animateStep f s)

/-- The number of obstacles that get newly marked `passed` in a frame (the
post-spawn obstacles whose post-move x position first falls strictly below
the seed's x position this frame). -/
def newlyPassedCount (f : Frame) (s : GameState) : ℕ :=
  ((spawnUpdate f s).1.filter fun o =>
    !o.passed && decide (seedStartX > o.topX - obstacleSpeed * f.dt)).length

/-- Ghost accumulator: the total number of newly-passed obstacle pairs over
a run of frames (only frames in which the game is running contribute). -/
def passedAlong : List Frame → GameState → ℕ
  | [], _ => 0
  | f :: fs, s =>
    (if s.gameStarted && !s.gameOver then newlyPassedCount f s else 0) +
      passedAlong fs (animateStep f s)

end FlyingSphere

namespace CanvasVariant

/-- `gravity` of the 2D-canvas variant (src/unnamed/part_000 line 11). -/
def vgravity : ℚ := 1.5

/-- ECMAScript `String.prototype.trim` on a string modelled as a list of
characters: remove leading and trailing whitespace. -/
def jsTrim (s : List Char) : List Char :=
  ((s.dropWhile Char.isWhitespace).reverse.dropWhile Char.isWhitespace).reverse

/-- The state of the 2D-canvas variant: the script-level variables of
src/unnamed/part_000 plus which screens are displayed.  The canvas y axis
points down, so falling increases `y`.  Strings are modelled as lists of
characters. -/
structure VState where
  y : ℚ
  vy : ℚ
  score : ℕ
  running : Bool
  username : List Char
  introShown : Bool
  gameShown : Bool
deriving Repr, DecidableEq

/-- The start-button click handler (part_000 lines 14-21): store the
trimmed username input; if it is empty (falsy), return with nothing else
changed; otherwise hide the intro screen, show the game container, set
`running` and start the loop. -/
def vStartClick (input : List Char) (s : VState) : VState :=
  let u := jsTrim input
  let s1 := { s with username := u }
  if u = [] then s1
  else { s1 with introShown := false, gameShown := true, running := true }

/-- The variant's per-frame physics (part_000 lines 27-28):
`vy += gravity; y += vy;`. -/
def vPhysics (y vy : ℚ) : ℚ × ℚ :=
  let vy1 := vy + vgravity
  let y1 := y + vy1
  (y1, vy1)

/-- One call of `gameLoop` (part_000 lines 23-41), minus canvas drawing:
return immediately when not running; otherwise apply gravity, integrate,
and clamp at the ground line y = 960 (zeroing the velocity there).  The
score is only drawn, never changed. -/
def vGameLoopStep (s : VState) : VState :=
  if !s.running then s
  else
    let p := vPhysics s.y s.vy
    if p.1 > 960 then { s with y := 960, vy := 0 }
    else { s with y := p.1, vy := p.2 }

/-- The keydown handler (part_000 lines 43-47): on Space, set `vy := -25`,
but only when `y >= 960` (the object is at the ground line). -/
def vKeydown (s : VState) : VState :=
  if s.y ≥ 960 then { s with vy := -25 } else s

end CanvasVariant

open FlyingSphere CanvasVariant

/-! ### Shared concrete inputs -/

/-- A seed box far away from everything; no obstacle intersects it. -/
def farBox : Box3 :=
  { minX := -100, minY := -100, minZ := -100, maxX := -99, maxY := -99, maxZ := -99 }

/-- A generic frame: small delta time, gap draws 4 and 0. -/
def fEx : Frame := { dt := 0.1, gapHeight := 4, gapCenterY := 0, seedBox := farBox }

/-- A running state: mid-screen seed moving up, no obstacles. -/
def sRunEx : GameState :=
  { seedY := 0, seedVelocityY := 0.3, gameStarted := true, gameOver := false,
    score := 0, timeSinceLastSpawn := 0, obstacles := [], seedVisible := true }

/-- An obstacle pair just right of the seed, not yet passed. -/
def exObstacle : Obstacle :=
  { topX := -2.9, topY := 6, topHeight := 4, bottomX := -2.9, bottomY := -6, bottomHeight := 4,
    passed := false }

/-- A running state whose seed is just above the bottom bound and falling fast,
with `exObstacle` active. -/
def exState4 : GameState :=
  { seedY := -7.4, seedVelocityY := -0.5, gameStarted := true, gameOver := false,
    score := 3, timeSinceLastSpawn := 0, obstacles := [exObstacle], seedVisible := true }

/-- A frame with delta time 0.1 for `exState4`. -/
def exFrame4 : Frame := { dt := 0.1, gapHeight := 4, gapCenterY := 0, seedBox := farBox }

/-- A game-over state with nonzero velocity and score. -/
def sOverEx : GameState :=
  { seedY := 2, seedVelocityY := 0.3, gameStarted := true, gameOver := true,
    score := 5, timeSinceLastSpawn := 0, obstacles := [], seedVisible := false }

/-- The obstacle `exObstacle` after one move by 0.3 with its `passed` flag set. -/
def exPassedObstacle : Obstacle :=
  { topX := -3.2, topY := 6, topHeight := 4, bottomX := -3.2, bottomY := -6, bottomHeight := 4,
    passed := true }

/-- An intro-screen state of the 2D-canvas variant: not running. -/
def vIntroEx : VState :=
  { y := 800, vy := 0, score := 0, running := false, username := [],
    introShown := true, gameShown := false }

/-- A running variant state with the object mid-air (above the ground line). -/
def sMidAirEx : VState :=
  { y := 800, vy := 7, score := 0, running := true, username := ['u'],
    introShown := false, gameShown := true }

/-- A running variant state with the object at the ground line. -/
def sGroundEx : VState :=
  { y := 960, vy := 0, score := 0, running := true, username := ['u'],
    introShown := false, gameShown := true }

/-! ### Helper lemmas -/

lemma seedMinY_le_seedMaxY : seedMinY ≤ seedMaxY := by
  norm_num [seedMinY, seedMaxY, viewHeight, seedRadius]

lemma boundaryCheck_of_mem (y v : ℚ) (h1 : seedMinY ≤ y) (h2 : y ≤ seedMaxY) :
    boundaryCheck y v = (y, v, false) := by
  simp [boundaryCheck, not_lt.2 h1, not_lt.2 h2]

lemma boundaryCheck_low (y v : ℚ) (h : y < seedMinY) :
    boundaryCheck y v = (seedMinY, 0, true) := by
  simp [boundaryCheck, h]

lemma boundaryCheck_high (y v : ℚ) (h : seedMaxY < y) :
    boundaryCheck y v = (seedMaxY, 0, true) := by
  have hnl : ¬ y < seedMinY := not_lt.2 (le_trans seedMinY_le_seedMaxY h.le)
  simp [boundaryCheck, hnl, h]

lemma boundaryCheck_fst_mem (y v : ℚ) :
    seedMinY ≤ (boundaryCheck y v).1 ∧ (boundaryCheck y v).1 ≤ seedMaxY := by
  unfold boundaryCheck
  split
  · exact ⟨le_refl _, seedMinY_le_seedMaxY⟩
  · split
    · exact ⟨seedMinY_le_seedMaxY, le_refl _⟩
    · rename_i hlo hhi
      exact ⟨not_lt.1 hlo, not_lt.1 hhi⟩

lemma animateStep_of_running (f : Frame) (s : GameState)
    (hs : s.gameStarted = true) (ho : s.gameOver = false) :
    animateStep f s = animateRunning f s := by
  simp [animateStep, hs, ho]

lemma animateStep_of_over (f : Frame) (s : GameState) (ho : s.gameOver = true) :
    animateStep f s = { s with seedVisible := false } := by
  simp [animateStep, ho]

lemma box3IntersectsBox_iff (a b : Box3) :
    box3IntersectsBox a b = true ↔ Box3.Intersects a b := by
  have key : ∀ c : Bool, (((if c then false else true) : Bool) = true) ↔ (c = false) := by
    intro c; cases c <;> simp
  unfold box3IntersectsBox Box3.Intersects
  rw [key]
  simp only [Bool.or_eq_false_iff, decide_eq_false_iff_not, not_lt]
  tauto

/-! ### Claims -/

/-- C1: in every frame in which the game is started and not over, the seed is
updated by semi-implicit Euler integration: the velocity first decreases by the
gravity constant 0.015, then the position increases by the new velocity, so the
post-physics state before boundary clamping is `(y + (v - 0.015), v - 0.015)`;
when that position is within the screen bounds, it is exactly the seed state
after the frame. -/
theorem claimC1_semi_implicit_euler (f : Frame) (s : GameState)
    (hs : s.gameStarted = true) (ho : s.gameOver = false) :
    gravity = 0.015 ∧
    seedPhysics s.seedY s.seedVelocityY
      = (s.seedY + (s.seedVelocityY - gravity), s.seedVelocityY - gravity) ∧
    (seedMinY ≤ s.seedY + (s.seedVelocityY - gravity) →
      s.seedY + (s.seedVelocityY - gravity) ≤ seedMaxY →
      (animateStep f s).seedY = s.seedY + (s.seedVelocityY - gravity) ∧
      (animateStep f s).seedVelocityY = s.seedVelocityY - gravity) := by
  refine ⟨rfl, rfl, fun h1 h2 => ?_⟩
  rw [animateStep_of_running f s hs ho]
  have hb := boundaryCheck_of_mem (s.seedY + (s.seedVelocityY - gravity))
    (s.seedVelocityY - gravity) h1 h2
  constructor
  · show (boundaryCheck (seedPhysics s.seedY s.seedVelocityY).1
      (seedPhysics s.seedY s.seedVelocityY).2).1 = _
    rw [show seedPhysics s.seedY s.seedVelocityY
      = (s.seedY + (s.seedVelocityY - gravity), s.seedVelocityY - gravity) from rfl, hb]
  · show (boundaryCheck (seedPhysics s.seedY s.seedVelocityY).1
      (seedPhysics s.seedY s.seedVelocityY).2).2.1 = _
    rw [show seedPhysics s.seedY s.seedVelocityY
      = (s.seedY + (s.seedVelocityY - gravity), s.seedVelocityY - gravity) from rfl, hb]

/-- Witness for C1 at a concrete in-bounds running state. -/
theorem claimC1_witness :
    (animateStep fEx sRunEx).seedY = sRunEx.seedY + (sRunEx.seedVelocityY - gravity) ∧
    (animateStep fEx sRunEx).seedVelocityY = sRunEx.seedVelocityY - gravity :=
  (claimC1_semi_implicit_euler fEx sRunEx rfl rfl).2.2
    (by norm_num [sRunEx, seedMinY, viewHeight, seedRadius, gravity])
    (by norm_num [sRunEx, seedMaxY, viewHeight, seedRadius, gravity])

/-- C3: `checkCollisions` returns true iff some obstacle pair in the list has a
top or bottom world-space AABB intersecting the seed's world-space AABB, and it
returns false on the empty list. -/
theorem claimC3_collision_scan (sb : Box3) (obs : List Obstacle) :
    (checkCollisions sb obs = true ↔
      ∃ o ∈ obs, Box3.Intersects sb (topWorldBox o) ∨
        Box3.Intersects sb (bottomWorldBox o)) ∧
    checkCollisions sb [] = false := by
  constructor
  · unfold checkCollisions
    rw [List.any_eq_true]
    constructor
    · rintro ⟨o, ho, hb⟩
      rw [Bool.or_eq_true] at hb
      exact ⟨o, ho, hb.imp (box3IntersectsBox_iff sb (topWorldBox o)).1
        (box3IntersectsBox_iff sb (bottomWorldBox o)).1⟩
    · rintro ⟨o, ho, hi⟩
      refine ⟨o, ho, ?_⟩
      rw [Bool.or_eq_true]
      exact hi.imp (box3IntersectsBox_iff sb (topWorldBox o)).2
        (box3IntersectsBox_iff sb (bottomWorldBox o)).2
  · rfl

/-- C5: whenever the two random draws are in the documented ranges,
`createObstacle` creates exactly one obstacle pair; both solid heights are at
least 1 (so the degenerate-height guard does not fire), the top solid reaches
exactly the top screen edge, the bottom solid exactly the bottom screen edge,
and the vertical gap between them is the drawn gap height, which lies in
`[obstacleMinGap, obstacleMaxGap]`. -/
theorem claimC5_spawn_geometry (gh gc : ℚ)
    (h1 : obstacleMinGap ≤ gh) (h2 : gh ≤ obstacleMaxGap)
    (h3 : viewHeight / -2 + gh / 2 + 1 ≤ gc) (h4 : gc ≤ viewHeight / 2 - gh / 2 - 1) :
    ∃ o, createObstacle gh gc = some o ∧
      1 ≤ o.topHeight ∧ 1 ≤ o.bottomHeight ∧
      o.topY + o.topHeight / 2 = viewHeight / 2 ∧
      o.bottomY - o.bottomHeight / 2 = viewHeight / -2 ∧
      (o.topY - o.topHeight / 2) - (o.bottomY + o.bottomHeight / 2) = gh ∧
      obstacleMinGap ≤ gh ∧ gh ≤ obstacleMaxGap := by
  have hguard : ¬ (viewHeight / 2 - (gc + gh / 2) ≤ 0 ∨
      viewHeight / 2 + (gc - gh / 2) ≤ 0) := by
    push_neg
    constructor <;> linarith
  refine ⟨{ topX := obstacleSpawnX
            topY := gc + gh / 2 + (viewHeight / 2 - (gc + gh / 2)) / 2
            topHeight := viewHeight / 2 - (gc + gh / 2)
            bottomX := obstacleSpawnX
            bottomY := gc - gh / 2 - (viewHeight / 2 + (gc - gh / 2)) / 2
            bottomHeight := viewHeight / 2 + (gc - gh / 2)
            passed := false }, ?_, ?_, ?_, ?_, ?_, ?_, h1, h2⟩
  · simp only [createObstacle]
    rw [if_neg hguard]
  all_goals dsimp only
  · linarith
  · linarith
  · ring
  · ring
  · ring

/-- Witness for C5 at the concrete draws gapHeight = 4, gapCenterY = 0. -/
theorem claimC5_witness :
    ∃ o, createObstacle 4 0 = some o ∧
      1 ≤ o.topHeight ∧ 1 ≤ o.bottomHeight ∧
      o.topY + o.topHeight / 2 = viewHeight / 2 ∧
      o.bottomY - o.bottomHeight / 2 = viewHeight / -2 ∧
      (o.topY - o.topHeight / 2) - (o.bottomY + o.bottomHeight / 2) = 4 ∧
      obstacleMinGap ≤ 4 ∧ (4 : ℚ) ≤ obstacleMaxGap :=
  claimC5_spawn_geometry 4 0 (by norm_num [obstacleMinGap]) (by norm_num [obstacleMaxGap])
    (by norm_num [viewHeight]) (by norm_num [viewHeight])

/-! ### processObstacle normal form -/

lemma processObstacle_eq (m : ℚ) (o : Obstacle) :
    processObstacle m o =
      ((if o.topX - m < obstacleDespawnX then none
        else some { topX := o.topX - m, topY := o.topY, topHeight := o.topHeight,
                    bottomX := o.bottomX - m, bottomY := o.bottomY,
                    bottomHeight := o.bottomHeight,
                    passed := o.passed || decide (seedStartX > o.topX - m) }),
       (!o.passed && decide (seedStartX > o.topX - m))) := by
  unfold processObstacle
  by_cases hp : o.passed = true <;> by_cases hx : seedStartX > o.topX - m <;>
    simp [hp, hx] <;> split <;> rfl

lemma animateRunning_seedY (f : Frame) (s : GameState) :
    (animateRunning f s).seedY =
      (boundaryCheck (s.seedY + (s.seedVelocityY - gravity)) (s.seedVelocityY - gravity)).1 :=
  rfl

lemma animateRunning_seedVelocityY (f : Frame) (s : GameState) :
    (animateRunning f s).seedVelocityY =
      (boundaryCheck (s.seedY + (s.seedVelocityY - gravity)) (s.seedVelocityY - gravity)).2.1 :=
  rfl

lemma animateRunning_obstacles (f : Frame) (s : GameState) :
    (animateRunning f s).obstacles =
      ((spawnUpdate f s).1.map (processObstacle (obstacleSpeed * f.dt))).filterMap Prod.fst :=
  rfl

lemma animateRunning_score (f : Frame) (s : GameState) :
    (animateRunning f s).score =
      s.score + ((spawnUpdate f s).1.map (processObstacle (obstacleSpeed * f.dt))).countP
        (fun r => r.2) :=
  rfl

lemma animateRunning_gameOver_of_boundary (f : Frame) (s : GameState)
    (h : (boundaryCheck (s.seedY + (s.seedVelocityY - gravity)) (s.seedVelocityY - gravity)).2.2
      = true) :
    (animateRunning f s).gameOver = true := by
  show (if !(boundaryCheck (s.seedY + (s.seedVelocityY - gravity))
        (s.seedVelocityY - gravity)).2.2 &&
      checkCollisions f.seedBox (((spawnUpdate f s).1.map
        (processObstacle (obstacleSpeed * f.dt))).filterMap Prod.fst) then true
    else (boundaryCheck (s.seedY + (s.seedVelocityY - gravity))
      (s.seedVelocityY - gravity)).2.2) = true
  rw [h]
  simp

lemma animateStep_seedY_of_not_running (f : Frame) (s : GameState)
    (h : (s.gameStarted && !s.gameOver) = false) :
    (animateStep f s).seedY = s.seedY := by
  unfold animateStep
  rw [h]
  by_cases ho : s.gameOver = true <;> simp [ho]

lemma animateStep_score_of_not_running (f : Frame) (s : GameState)
    (h : (s.gameStarted && !s.gameOver) = false) :
    (animateStep f s).score = s.score := by
  unfold animateStep
  rw [h]
  by_cases ho : s.gameOver = true <;> simp [ho]

lemma countP_processObstacle (m : ℚ) (l : List Obstacle) :
    (l.map (processObstacle m)).countP (fun r => r.2) =
      (l.filter fun o => !o.passed && decide (seedStartX > o.topX - m)).length := by
  rw [List.countP_map, ← List.countP_eq_length_filter]
  apply List.countP_congr
  intro o _
  rw [Function.comp_apply, processObstacle_eq]

lemma animateStep_score (f : Frame) (s : GameState) :
    (animateStep f s).score = s.score +
      (if s.gameStarted && !s.gameOver then newlyPassedCount f s else 0) := by
  by_cases hr : (s.gameStarted && !s.gameOver) = true
  · rw [Bool.and_eq_true, Bool.not_eq_true'] at hr
    obtain ⟨hs, ho⟩ := hr
    rw [animateStep_of_running f s hs ho, animateRunning_score, countP_processObstacle, hs, ho]
    simp [newlyPassedCount]
  · rw [Bool.not_eq_true] at hr
    rw [hr]
    simp only [Bool.false_eq_true, if_false, Nat.add_zero]
    exact animateStep_score_of_not_running f s hr

lemma runFrames_score (fs : List Frame) (s : GameState) :
    (runFrames fs s).score = s.score + passedAlong fs s := by
  induction fs generalizing s with
  | nil => simp [runFrames, passedAlong]
  | cons f fs ih =>
    rw [runFrames, passedAlong, ih, animateStep_score]
    omega

/-- Counterexample to C2: an input event that arrives while the game is over
resets the game, which sets the velocity to 0, not to `surgeStrength`. -/
theorem claimC2_counterexample :
    (handleInput sOverEx).seedVelocityY = 0 ∧ surgeStrength ≠ 0 :=
  ⟨rfl, by norm_num [surgeStrength]⟩

/-- C2 (amended): on an input event while the game is not over, the velocity is
set to `surgeStrength` regardless of its previous value (and the game is marked
started); an input event while the game is over instead resets the game, which
sets the velocity to 0. -/
theorem claimC2_surge_on_input (s : GameState) :
    (s.gameOver = false →
      (handleInput s).seedVelocityY = surgeStrength ∧ (handleInput s).gameStarted = true) ∧
    (s.gameOver = true →
      handleInput s = resetGame s ∧ (resetGame s).seedVelocityY = 0) := by
  constructor
  · intro h
    constructor <;> simp [handleInput, h]
  · intro h
    exact ⟨by simp [handleInput, h], rfl⟩

/-- Witness for C2 (amended) at concrete running and game-over states. -/
theorem claimC2_witness :
    (handleInput sRunEx).seedVelocityY = surgeStrength ∧
    (handleInput sRunEx).gameStarted = true ∧
    handleInput sOverEx = resetGame sOverEx :=
  ⟨((claimC2_surge_on_input sRunEx).1 rfl).1, ((claimC2_surge_on_input sRunEx).1 rfl).2,
    ((claimC2_surge_on_input sOverEx).2 rfl).1⟩

/-- C6: obstacle pairs spawn with both members at x = viewWidth/2 +
obstacleWidth, both members move left by the same amount obstacleSpeed * dt per
frame (so equal x coordinates are preserved), and a pair is dropped from the
obstacles list exactly when its moved x position is strictly below the despawn
threshold -viewWidth/2 - obstacleWidth; the obstacle list after a running frame
is exactly the post-spawn list processed this way. -/
theorem claimC6_obstacle_lifecycle :
    (∀ gh gc o, createObstacle gh gc = some o →
      o.topX = viewWidth / 2 + obstacleWidth ∧ o.bottomX = viewWidth / 2 + obstacleWidth) ∧
    (∀ dt o o1, (processObstacle (obstacleSpeed * dt) o).1 = some o1 →
      o1.topX = o.topX - obstacleSpeed * dt ∧ o1.bottomX = o.bottomX - obstacleSpeed * dt ∧
      (o.topX = o.bottomX → o1.topX = o1.bottomX)) ∧
    (∀ dt o, (processObstacle (obstacleSpeed * dt) o).1 = none ↔
      o.topX - obstacleSpeed * dt < viewWidth / -2 - obstacleWidth) ∧
    (∀ f s, s.gameStarted = true → s.gameOver = false →
      (animateStep f s).obstacles =
        ((spawnUpdate f s).1.map (processObstacle (obstacleSpeed * f.dt))).filterMap
          Prod.fst) := by
  refine ⟨?_, ?_, ?_, ?_⟩
  · intro gh gc o h
    simp only [createObstacle] at h
    by_cases hg : (viewHeight / 2 - (gc + gh / 2) ≤ 0 ∨ viewHeight / 2 + (gc - gh / 2) ≤ 0)
    · rw [if_pos hg] at h
      exact absurd h (by simp)
    · rw [if_neg hg] at h
      cases h
      exact ⟨rfl, rfl⟩
  · intro dt o o1 h
    rw [processObstacle_eq] at h
    by_cases hd : o.topX - obstacleSpeed * dt < obstacleDespawnX
    · rw [if_pos hd] at h
      exact absurd h (by simp)
    · rw [if_neg hd] at h
      cases h
      exact ⟨rfl, rfl, fun he => by dsimp only; rw [he]⟩
  · intro dt o
    rw [processObstacle_eq]
    by_cases hd : o.topX - obstacleSpeed * dt < obstacleDespawnX
    · rw [if_pos hd]
      exact ⟨fun _ => hd, fun _ => rfl⟩
    · rw [if_neg hd]
      exact ⟨fun h => absurd h (by simp), fun h => absurd h hd⟩
  · intro f s hs ho
    rw [animateStep_of_running f s hs ho, animateRunning_obstacles]

/-- Witness for C6 at concrete inputs. -/
theorem claimC6_witness :
    (∃ o, createObstacle 4 0 = some o ∧
      o.topX = viewWidth / 2 + obstacleWidth ∧ o.bottomX = viewWidth / 2 + obstacleWidth) ∧
    ((processObstacle (obstacleSpeed * 0.1) exObstacle).1 = none ↔
      exObstacle.topX - obstacleSpeed * 0.1 < viewWidth / -2 - obstacleWidth) ∧
    (animateStep fEx sRunEx).obstacles =
      ((spawnUpdate fEx sRunEx).1.map
        (processObstacle (obstacleSpeed * fEx.dt))).filterMap Prod.fst := by
  have hc : createObstacle 4 0 = some
      { topX := obstacleSpawnX, topY := 5, topHeight := 6,
        bottomX := obstacleSpawnX, bottomY := -5, bottomHeight := 6, passed := false } := by
    norm_num [createObstacle, viewHeight, obstacleSpawnX, viewWidth, aspectRatio, obstacleWidth]
  refine ⟨⟨_, hc, (claimC6_obstacle_lifecycle.1 4 0 _ hc).1,
      (claimC6_obstacle_lifecycle.1 4 0 _ hc).2⟩,
    claimC6_obstacle_lifecycle.2.2.1 0.1 exObstacle,
    claimC6_obstacle_lifecycle.2.2.2 fEx sRunEx rfl rfl⟩

/-- C7: the seed's vertical position is a per-frame invariant of the screen
interval [seedMinY, seedMaxY]; whenever the physics integration would carry it
below (resp. above) the interval in a running frame, the position is clamped to
the violated bound, the velocity is zeroed, and the game ends. -/
theorem claimC7_seed_bounds (f : Frame) (s : GameState)
    (hin : seedMinY ≤ s.seedY ∧ s.seedY ≤ seedMaxY) :
    (seedMinY ≤ (animateStep f s).seedY ∧ (animateStep f s).seedY ≤ seedMaxY) ∧
    (s.gameStarted = true → s.gameOver = false →
      s.seedY + (s.seedVelocityY - gravity) < seedMinY →
      (animateStep f s).seedY = seedMinY ∧ (animateStep f s).seedVelocityY = 0 ∧
        (animateStep f s).gameOver = true) ∧
    (s.gameStarted = true → s.gameOver = false →
      seedMaxY < s.seedY + (s.seedVelocityY - gravity) →
      (animateStep f s).seedY = seedMaxY ∧ (animateStep f s).seedVelocityY = 0 ∧
        (animateStep f s).gameOver = true) := by
  refine ⟨?_, ?_, ?_⟩
  · by_cases hr : (s.gameStarted && !s.gameOver) = true
    · rw [Bool.and_eq_true, Bool.not_eq_true'] at hr
      rw [animateStep_of_running f s hr.1 hr.2, animateRunning_seedY]
      exact boundaryCheck_fst_mem _ _
    · rw [Bool.not_eq_true] at hr
      rw [animateStep_seedY_of_not_running f s hr]
      exact hin
  · intro hs ho hlow
    rw [animateStep_of_running f s hs ho, animateRunning_seedY, animateRunning_seedVelocityY]
    have hb := boundaryCheck_low _ (s.seedVelocityY - gravity) hlow
    rw [hb]
    exact ⟨rfl, rfl, animateRunning_gameOver_of_boundary f s (by rw [hb])⟩
  · intro hs ho hhigh
    rw [animateStep_of_running f s hs ho, animateRunning_seedY, animateRunning_seedVelocityY]
    have hb := boundaryCheck_high _ (s.seedVelocityY - gravity) hhigh
    rw [hb]
    exact ⟨rfl, rfl, animateRunning_gameOver_of_boundary f s (by rw [hb])⟩

/-- Witness for C7 at a concrete state that falls below the bottom bound. -/
theorem claimC7_witness :
    (seedMinY ≤ (animateStep exFrame4 exState4).seedY ∧
      (animateStep exFrame4 exState4).seedY ≤ seedMaxY) ∧
    ((animateStep exFrame4 exState4).seedY = seedMinY ∧
      (animateStep exFrame4 exState4).seedVelocityY = 0 ∧
      (animateStep exFrame4 exState4).gameOver = true) := by
  have h := claimC7_seed_bounds exFrame4 exState4
    (by norm_num [exState4, seedMinY, seedMaxY, viewHeight, seedRadius])
  exact ⟨h.1, h.2.1 rfl rfl (by norm_num [exState4, seedMinY, viewHeight, seedRadius, gravity])⟩

/-- Counterexample to C4: in `exState4` the boundary check sets `gameOver`
during the frame (the seed is clamped to `seedMinY`), yet the scoring check,
which runs later in the same frame, still increments the score because the
obstacle crosses the seed's x position in that frame. -/
theorem claimC4_counterexample :
    exState4.gameOver = false ∧
    (animateStep exFrame4 exState4).gameOver = true ∧
    (animateStep exFrame4 exState4).seedY = seedMinY ∧
    (animateStep exFrame4 exState4).score = exState4.score + 1 := by
  refine ⟨rfl, ?_, ?_, ?_⟩ <;>
    norm_num [animateStep, animateRunning, seedPhysics, boundaryCheck, spawnUpdate,
      processObstacle, checkCollisions, exState4, exFrame4, exObstacle, seedMinY, seedMaxY,
      viewHeight, seedRadius, gravity, obstacleSpeed, spawnInterval, obstacleDespawnX,
      viewWidth, aspectRatio, obstacleWidth, seedStartX, List.countP_cons, List.countP_nil]

/-- C4 (amended): once `gameOver` is set, a frame changes nothing except hiding
the seed, so the score is never incremented in any subsequent frame until a
reset input occurs (which zeroes the score); however, within the very frame in
which the boundary check sets `gameOver`, the scoring check still runs
afterwards and may increment the score once more. -/
theorem claimC4_score_frozen_after_game_over :
    (∀ f s, s.gameOver = true → animateStep f s = { s with seedVisible := false }) ∧
    (∀ fs s, s.gameOver = true → (runFrames fs s).score = s.score) ∧
    (∀ s, s.gameOver = true → handleInput s = resetGame s ∧ (resetGame s).score = 0) := by
  have hstep : ∀ f s, s.gameOver = true → animateStep f s = { s with seedVisible := false } :=
    fun f s ho => animateStep_of_over f s ho
  refine ⟨hstep, ?_, ?_⟩
  · intro fs
    induction fs with
    | nil => intro s _; rfl
    | cons f fs ih =>
      intro s ho
      rw [runFrames, hstep f s ho]
      exact ih _ ho
  · intro s ho
    exact ⟨by simp [handleInput, ho], rfl⟩

/-- Witness for C4 (amended) at a concrete game-over state. -/
theorem claimC4_witness :
    (runFrames [fEx] sOverEx).score = sOverEx.score ∧
    animateStep fEx sOverEx = { sOverEx with seedVisible := false } ∧
    handleInput sOverEx = resetGame sOverEx :=
  ⟨claimC4_score_frozen_after_game_over.2.1 [fEx] sOverEx rfl,
    claimC4_score_frozen_after_game_over.1 fEx sOverEx rfl,
    (claimC4_score_frozen_after_game_over.2.2 sOverEx rfl).1⟩

/-- C10: the per-obstacle score increment fires exactly when the obstacle is
not yet passed and the seed's x position exceeds the obstacle's post-move x
position; the surviving obstacle's `passed` flag is the old flag or-ed with
that condition (so it is set at that moment and never cleared); a pair whose
flag is already set never contributes again; the per-frame score delta is the
number of newly passed pairs; and over any run from a reset state the score
equals the accumulated number of passed pairs. -/
theorem claimC10_score_counts_passed :
    (∀ m o, (processObstacle m o).2 = (!o.passed && decide (seedStartX > o.topX - m))) ∧
    (∀ m o o1, (processObstacle m o).1 = some o1 →
      o1.passed = (o.passed || decide (seedStartX > o.topX - m))) ∧
    (∀ (m : ℚ) (o : Obstacle), (processObstacle m { o with passed := true }).2 = false) ∧
    (∀ f s, (animateStep f s).score = s.score +
      (if s.gameStarted && !s.gameOver then newlyPassedCount f s else 0)) ∧
    (∀ fs s0, (runFrames fs (resetGame s0)).score = passedAlong fs (resetGame s0)) := by
  refine ⟨?_, ?_, ?_, animateStep_score, ?_⟩
  · intro m o
    rw [processObstacle_eq]
  · intro m o o1 h
    rw [processObstacle_eq] at h
    by_cases hd : o.topX - m < obstacleDespawnX
    · rw [if_pos hd] at h
      exact absurd h (by simp)
    · rw [if_neg hd] at h
      cases h
      rfl
  · intro m o
    rw [processObstacle_eq]
    simp
  · intro fs s0
    rw [runFrames_score]
    simp [resetGame]

/-- Witness for C10 at a concrete obstacle and run. -/
theorem claimC10_witness :
    (processObstacle 0.3 exObstacle).1 = some exPassedObstacle ∧
    exPassedObstacle.passed
      = (exObstacle.passed || decide (seedStartX > exObstacle.topX - 0.3)) ∧
    (runFrames [fEx] (resetGame sOverEx)).score = passedAlong [fEx] (resetGame sOverEx) := by
  have hp : (processObstacle 0.3 exObstacle).1 = some exPassedObstacle := by
    rw [processObstacle_eq]
    norm_num [exObstacle, exPassedObstacle, obstacleDespawnX, viewWidth, aspectRatio,
      viewHeight, obstacleWidth, seedStartX]
  exact ⟨hp, claimC10_score_counts_passed.2.1 0.3 exObstacle exPassedObstacle hp,
    claimC10_score_counts_passed.2.2.2.2 [fEx] sOverEx⟩

/-- C8: clicking start with a username that is empty after trimming leaves the
variant unstarted (running, intro screen and game container unchanged, and a
loop call on a non-running state is a no-op); clicking with a non-empty trimmed
username hides the intro screen, shows the game container and sets running. -/
theorem claimC8_username_gate :
    (∀ (input : List Char) (s : VState), jsTrim input = [] →
      (vStartClick input s).running = s.running ∧
      (vStartClick input s).introShown = s.introShown ∧
      (vStartClick input s).gameShown = s.gameShown) ∧
    (∀ (input : List Char) (s : VState), jsTrim input ≠ [] →
      (vStartClick input s).running = true ∧
      (vStartClick input s).introShown = false ∧
      (vStartClick input s).gameShown = true) ∧
    (∀ s : VState, s.running = false → vGameLoopStep s = s) := by
  refine ⟨fun input s h => ?_, fun input s h => ?_, fun s h => ?_⟩ <;>
    simp [vStartClick, vGameLoopStep, h]

/-- Witness for C8 at a whitespace-only and a non-empty username. -/
theorem claimC8_witness :
    (vStartClick [' '] vIntroEx).running = vIntroEx.running ∧
    (vStartClick ['a'] vIntroEx).running = true ∧
    (vStartClick ['a'] vIntroEx).introShown = false ∧
    (vStartClick ['a'] vIntroEx).gameShown = true ∧
    vGameLoopStep vIntroEx = vIntroEx :=
  ⟨(claimC8_username_gate.1 [' '] vIntroEx (by decide)).1,
    (claimC8_username_gate.2.1 ['a'] vIntroEx (by decide)).1,
    (claimC8_username_gate.2.1 ['a'] vIntroEx (by decide)).2.1,
    (claimC8_username_gate.2.1 ['a'] vIntroEx (by decide)).2.2,
    claimC8_username_gate.2.2 vIntroEx rfl⟩

/-- Counterexample to C9: the 2D-canvas variant does not apply a fixed upward
impulse on each input event — with the object mid-air an input leaves the
velocity unchanged (while the main game's input handler always sets the
velocity to `surgeStrength` when the game is not over) — and a variant frame
never changes the score. -/
theorem claimC9_counterexample :
    (vKeydown sMidAirEx).vy = sMidAirEx.vy ∧ sMidAirEx.vy ≠ -25 ∧
    (vGameLoopStep sMidAirEx).score = sMidAirEx.score ∧
    (handleInput sRunEx).seedVelocityY = surgeStrength := by
  refine ⟨?_, ?_, ?_, rfl⟩
  · norm_num [vKeydown, sMidAirEx]
  · norm_num [sMidAirEx]
  · norm_num [vGameLoopStep, vPhysics, vgravity, sMidAirEx]

/-- C9 (amended): the variant shares only the semi-implicit Euler gravity
integration with the main game (vy += gravity then y += vy, on a downward y
axis, with clamping at the ground line 960); its input impulse vy := -25 fires
only when the object is at or below the ground line, and it has no obstacles
and never changes the score. -/
theorem claimC9_variant_mechanics :
    (∀ y vy : ℚ, vPhysics y vy = (y + (vy + vgravity), vy + vgravity)) ∧
    (∀ s : VState, (vGameLoopStep s).score = s.score) ∧
    (∀ s : VState, s.running = true → s.y + (s.vy + vgravity) ≤ 960 →
      (vGameLoopStep s).y = s.y + (s.vy + vgravity) ∧
      (vGameLoopStep s).vy = s.vy + vgravity) ∧
    (∀ s : VState, s.running = true → 960 < s.y + (s.vy + vgravity) →
      (vGameLoopStep s).y = 960 ∧ (vGameLoopStep s).vy = 0) ∧
    (∀ s : VState, 960 ≤ s.y → (vKeydown s).vy = -25) ∧
    (∀ s : VState, s.y < 960 → vKeydown s = s) := by
  refine ⟨fun y vy => rfl, ?_, ?_, ?_, ?_, ?_⟩
  · intro s
    unfold vGameLoopStep
    by_cases hr : s.running = true
    · rw [hr]
      by_cases hc : (vPhysics s.y s.vy).1 > 960 <;> simp [hc]
    · rw [Bool.not_eq_true] at hr
      rw [hr]
      rfl
  · intro s hr hle
    rw [vGameLoopStep, hr]
    simp only [Bool.not_true, Bool.false_eq_true, if_false]
    rw [if_neg (by exact not_lt.2 hle)]
    exact ⟨rfl, rfl⟩
  · intro s hr hgt
    rw [vGameLoopStep, hr]
    simp only [Bool.not_true, Bool.false_eq_true, if_false]
    rw [if_pos (by exact hgt)]
    exact ⟨rfl, rfl⟩
  · intro s h
    rw [vKeydown, if_pos h]
  · intro s h
    rw [vKeydown, if_neg (not_le.2 h)]

/-- Witness for C9 (amended) at the mid-air and ground states. -/
theorem claimC9_witness :
    (vGameLoopStep sMidAirEx).y = sMidAirEx.y + (sMidAirEx.vy + vgravity) ∧
    (vKeydown sGroundEx).vy = -25 ∧
    vKeydown sMidAirEx = sMidAirEx :=
  ⟨(claimC9_variant_mechanics.2.2.1 sMidAirEx rfl
      (by norm_num [sMidAirEx, vgravity])).1,
    claimC9_variant_mechanics.2.2.2.2.1 sGroundEx (by norm_num [sGroundEx]),
    claimC9_variant_mechanics.2.2.2.2.2 sMidAirEx (by norm_num [sMidAirEx])⟩
